import Mathlib

/-!
Verification development for the `llm_app` webhook orchestrator.

The repository contains three rewrite variants of the same four-stage
pipeline (generate, publish, host, notify):

* variant A: the first program in `src/server.js` (Gemini + simple-git),
  embedded in namespace `VA`;
* variant B: the second program in `src/server.js` (OpenAI + Octokit with
  git CLI), embedded in namespace `VB`;
* variant C: `src/unnamed/part_000` (OpenAI + Octokit content API),
  embedded in namespace `VC`.

Each variant is embedded as a pure function from its configuration, the
incoming request, and a `World` record of external-call outcomes (LLM
result, hosting-API successes, per-attempt notification outcomes) to the
list of external calls it performs, in order.  A thrown JS exception is
modelled by cutting the event list short at the throwing call: every later
call is absent, matching the catch-and-log handlers at the top of each
background task.
-/

/-- Outcome of one `axios.post`: an HTTP response with the given status, or a
transport-level failure (timeout, connection error), which rejects. -/
inductive Outcome where
  | response (status : Nat)
  | transportError
deriving DecidableEq

/-- Whether a status is 2xx-class. -/
def is2xx (s : Nat) : Bool := 200 ≤ s && s < 300

/-- Axios default `validateStatus`: the promise resolves exactly on a 2xx
response; any other status, or a transport error, rejects. -/
def axiosOk : Outcome → Bool
  | .response s => is2xx s
  | .transportError => false

/-- The notification payload posted to the evaluation URL.  `commit_sha` is an
`Option` because variant A builds the payload from a variable that is never
assigned when `round` is neither 1 nor 2 (JS `undefined`). -/
structure EvalPayload where
  email : String
  task : String
  round : Int
  nonce : String
  repo_url : String
  commit_sha : Option String
  pages_url : String
deriving DecidableEq

/-- One external call (or local file-system effect) performed by a run. -/
inductive Event where
  | llmCall
  | createRepo (name : String)
  | enablePages (name : String)
  | getContent (repo : String) (path : String)
  | putFile (repo : String) (path : String) (content : String)
  | gitClone (repo : String)
  | gitPush (repo : String)
  | mkTempDir (dir : String)
  | writeLocal (dir : String) (file : String) (content : String)
  | rmTempDir (dir : String)
  | notify (url : String) (payload : EvalPayload)
  | wait (ms : Nat)
deriving DecidableEq

/-- An attachment of the incoming request. -/
structure Attachment where
  name : String
  url : String
deriving DecidableEq

/-- The incoming task request (JSON body).  `secret` is `Option` so that a
request omitting the field (JS `undefined`) is representable. -/
structure Request where
  email : String
  secret : Option String
  task : String
  round : Int
  nonce : String
  brief : String
  checks : List String
  attachments : List Attachment
  evaluation_url : String
deriving DecidableEq

/-- A parsed JSON object with string values, kept as an entry list in insertion
order (the order `Object.entries` iterates). -/
abbrev JsObject := List (String × String)

/-- JS property read `obj[key]`: `none` models `undefined`. -/
def jsGet (o : JsObject) (k : String) : Option String :=
  (o.find? (fun e => e.1 == k)).map (·.2)

/-- JS falsiness of a string-or-undefined value: `undefined` and the empty
string are falsy. -/
def jsFalsy : Option String → Bool
  | none => true
  | some s => s == ""

def isCreateRepo : Event → Bool
  | .createRepo _ => true
  | _ => false

def isEnablePages : Event → Bool
  | .enablePages _ => true
  | _ => false

def isNotify : Event → Bool
  | .notify _ _ => true
  | _ => false

def isWait : Event → Bool
  | .wait _ => true
  | _ => false

def isLlmCall : Event → Bool
  | .llmCall => true
  | _ => false

def isMkTempDir : Event → Bool
  | .mkTempDir _ => true
  | _ => false

def isRmTempDir : Event → Bool
  | .rmTempDir _ => true
  | _ => false

def isPutFile : Event → Bool
  | .putFile _ _ _ => true
  | _ => false

def isGetContent : Event → Bool
  | .getContent _ _ => true
  | _ => false

/-- Calls that can change hosting-side repository state. -/
def isHostCall : Event → Bool
  | .createRepo _ => true
  | .enablePages _ => true
  | .putFile _ _ _ => true
  | .gitPush _ => true
  | _ => false

/-- Whether an event writes or updates the named file, either staged locally or
through the content API. -/
def touches (f : String) : Event → Bool
  | .writeLocal _ name _ => name == f
  | .putFile _ p _ => p == f
  | _ => false

/-- Total milliseconds slept by the `wait` events of a trace. -/
def waitTotal (es : List Event) : Nat :=
  (es.map (fun e => match e with | .wait d => d | _ => 0)).sum

namespace VA

/-- Configuration of variant A (environment variables). -/
structure Config where
  studentSecret : Option String
  githubUsername : String
  githubPat : String

/-- Result of the Gemini call in variant A, abstracted to the per-label regex
match of `text.match` on the fenced block for each label: `none` models a
failed match, `some s` the captured block body. -/
structure GeminiResponse where
  htmlBlock : Option String
  jsBlock : Option String
  markdownBlock : Option String

/-- The `extract` closure of `generateCode`: the trimmed regex capture, or the
placeholder error string when the block is missing. -/
def extract (label : String) (block : Option String) : String :=
  match block with
  | some s => s.trim
  | none => "// Error: Could not extract " ++ label ++ " code."

/-- The predefined MIT license text hard-coded in `generateCode`. -/
def licenseText : String :=
  "The MIT License\n\nCopyright (c) [Year] [Student Name]\n\nPermission is hereby granted..."

/-- The file map `generateCode` returns. -/
structure Files where
  html : String
  js : String
  readme : String
  license : String

/-- The response processing of `generateCode`: one extraction per labelled
block plus the fixed license.  (The prompt construction only feeds the
external model and does not influence which calls the run performs.) -/
def generateCode (resp : GeminiResponse) : Files :=
  { html := extract "html" resp.htmlBlock
    js := extract "javascript" resp.jsBlock
    readme := extract "markdown" resp.markdownBlock
    license := licenseText }

/-- The deterministic repository name of variant A. -/
def repoNameOf (task : String) : String := "llm-project-" ++ task

/-- Outcomes of the external calls made during one variant-A run.  A failed
local file read in round 2 aborts the run exactly like a failed model call and
is folded into `llm`. -/
structure World where
  llm : Except Unit GeminiResponse
  tempSuffix : String
  cloneOk : Bool
  pushOk : Bool
  headSha : String
  notifyOuts : Nat → Outcome

/-- The retry loop of `postToEvaluation`, by remaining iterations; `outs i` is
the outcome of the i-th `axios.post`.  Returns whether the function returned
normally (`true`) or threw after the final failed attempt (`false`), together
with the calls it made.  The wait is skipped after the last attempt
(`i < maxRetries - 1` guard). -/
def postToEvalGo (outs : Nat → Outcome) (url : String) (p : EvalPayload) :
    Nat → Nat → Nat → Bool × List Event
  | 0, _, _ => (false, [])
  | r + 1, i, delay =>
    if axiosOk (outs i) then (true, [Event.notify url p])
    else if r = 0 then (false, [Event.notify url p])
    else
      let rest := postToEvalGo outs url p r (i + 1) (delay * 2)
      (rest.1, Event.notify url p :: Event.wait delay :: rest.2)

def maxRetries : Nat := 5

/-- The function `postToEvaluation`: up to `maxRetries` posts with waits of 1000 ms doubling
after each failed attempt except the last. -/
def postToEvaluation (outs : Nat → Outcome) (url : String) (p : EvalPayload) :
    Bool × List Event :=
  postToEvalGo outs url p maxRetries 0 1000

/-- The asynchronous workflow of the `/api-endpoint` handler (the body of the
`try` block entered after the 200 response), as the list of external calls it
performs.  An error thrown by any step reaches the final `catch`, which only
logs, so the trace simply stops at the throwing call. -/
def backgroundTask (cfg : Config) (w : World) (req : Request) : List Event :=
  let repoName := repoNameOf req.task
  let repoUrl := "https://github.com/" ++ cfg.githubUsername ++ "/" ++ repoName
  let pagesUrl := "https://" ++ cfg.githubUsername.toLower ++ ".github.io/" ++ repoName ++ "/"
  let tempDir := "/tmp/repo-" ++ req.task ++ "-" ++ w.tempSuffix
  if req.round = 1 then
    Event.llmCall ::
    match w.llm with
    | .error _ => []
    | .ok resp =>
      let files := generateCode resp
      let staged : List Event :=
        [Event.mkTempDir tempDir,
         Event.writeLocal tempDir "index.html" files.html,
         Event.writeLocal tempDir "script.js" files.js,
         Event.writeLocal tempDir "README.md" files.readme,
         Event.writeLocal tempDir "LICENSE" files.license,
         Event.gitPush repoName]
      if w.pushOk then
        staged ++ [Event.rmTempDir tempDir] ++
          (postToEvaluation w.notifyOuts req.evaluation_url
            { email := req.email, task := req.task, round := req.round, nonce := req.nonce,
              repo_url := repoUrl, commit_sha := some w.headSha, pages_url := pagesUrl }).2
      else staged
  else if req.round = 2 then
    Event.gitClone repoName ::
    if w.cloneOk then
      Event.llmCall ::
      match w.llm with
      | .error _ => []
      | .ok resp =>
        let files := generateCode resp
        let staged : List Event :=
          [Event.writeLocal tempDir "index.html" files.html,
           Event.writeLocal tempDir "script.js" files.js,
           Event.writeLocal tempDir "README.md" files.readme,
           Event.gitPush repoName]
        if w.pushOk then
          staged ++ [Event.rmTempDir tempDir] ++
            (postToEvaluation w.notifyOuts req.evaluation_url
              { email := req.email, task := req.task, round := req.round, nonce := req.nonce,
                repo_url := repoUrl, commit_sha := some w.headSha, pages_url := pagesUrl }).2
        else staged
    else []
  else
    (postToEvaluation w.notifyOuts req.evaluation_url
      { email := req.email, task := req.task, round := req.round, nonce := req.nonce,
        repo_url := repoUrl, commit_sha := none, pages_url := pagesUrl }).2

/-- The `/api-endpoint` handler of variant A: the secret gate, the synchronous
status, and the background calls. -/
def apiEndpoint (cfg : Config) (w : World) (req : Request) : Nat × List Event :=
  if req.secret ≠ cfg.studentSecret then (403, [])
  else (200, backgroundTask cfg w req)

end VA

namespace VB

/-- Configuration of variant B (environment variables). -/
structure Config where
  studentSecret : Option String
  githubUsername : String
  githubPat : String

/-- Outcomes of the external calls made during one variant-B run.  `llmParsed`
is the result of `JSON.parse` on the model output; its `.error` case covers a
failed chat-completion call and invalid JSON alike, both of which throw. -/
structure World where
  llmParsed : Except Unit JsObject
  createRepoOk : Bool
  pushOk : Bool
  headSha : String
  enablePagesOk : Bool
  notifyOuts : Nat → Outcome

/-- The repository name `processTask` derives: `${task}-${round}`. -/
def repoName (task : String) (round : Int) : String :=
  task ++ "-" ++ toString round

/-- The response processing of `generateAppCode`: on parsed JSON, the
required-file validation `!files['index.html'] || !files['README.md'] ||
!files['LICENSE']` throws; otherwise the parsed object is returned whole. -/
def generateAppCode (parsed : Except Unit JsObject) : Except Unit JsObject :=
  match parsed with
  | .error _ => .error ()
  | .ok files =>
    if jsFalsy (jsGet files "index.html") || jsFalsy (jsGet files "README.md")
        || jsFalsy (jsGet files "LICENSE") then .error ()
    else .ok files

/-- The function `commitToGitHub`: the hosting and git calls of one commit run, and the
`rev-parse HEAD` result on success.  The `finally` removes the temp directory
whenever it exists, on success and failure alike; when the round-1
`createForAuthenticatedUser` call fails the directory was never created, so
the `existsSync` guard skips the removal. -/
def commitToGitHub (w : World) (rName : String) (files : JsObject) (round : Int) :
    Except Unit String × List Event :=
  let tempDir := "/tmp/llm_task_temp/" ++ rName
  let createEvts : List Event := if round = 1 then [Event.createRepo rName] else []
  if round = 1 && !w.createRepoOk then
    (.error (), createEvts)
  else
    let writes := files.map (fun f => Event.writeLocal tempDir f.1 f.2)
    let staged := createEvts ++ [Event.mkTempDir tempDir] ++ writes ++ [Event.gitPush rName]
    if w.pushOk then (.ok w.headSha, staged ++ [Event.rmTempDir tempDir])
    else (.error (), staged ++ [Event.rmTempDir tempDir])

/-- The six backoff delays of `pingEvaluationAPI`, in milliseconds. -/
def delayTimes : List Nat := [1000, 2000, 4000, 8000, 16000, 32000]

/-- The retry loop of `pingEvaluationAPI` over the remaining entries of
`delayTimes`; `outs i` is the outcome of the i-th `axios.post`.  A resolved
response (2xx under the axios default) returns only when its status is
exactly 200; another 2xx status is logged and retried with no wait; a
rejected post is caught and waits the current delay.  Exiting the loop
throws. -/
def pingGo (outs : Nat → Outcome) (url : String) (p : EvalPayload) :
    List Nat → Nat → Bool × List Event
  | [], _ => (false, [])
  | d :: ds, i =>
    match outs i with
    | .response s =>
      if is2xx s then
        if s == 200 then (true, [Event.notify url p])
        else
          let rest := pingGo outs url p ds (i + 1)
          (rest.1, Event.notify url p :: rest.2)
      else
        let rest := pingGo outs url p ds (i + 1)
        (rest.1, Event.notify url p :: Event.wait d :: rest.2)
    | .transportError =>
      let rest := pingGo outs url p ds (i + 1)
      (rest.1, Event.notify url p :: Event.wait d :: rest.2)

def pingEvaluationAPI (outs : Nat → Outcome) (url : String) (p : EvalPayload) :
    Bool × List Event :=
  pingGo outs url p delayTimes 0

/-- The function `processTask` of variant B: generation, commit, round-1 pages enablement,
then the evaluation ping; every thrown error is caught by the outer handler,
which only logs. -/
def processTask (cfg : Config) (w : World) (req : Request) : List Event :=
  let rName := repoName req.task req.round
  let repoURL := "https://github.com/" ++ cfg.githubUsername ++ "/" ++ rName
  let pagesURL := "https://" ++ cfg.githubUsername ++ ".github.io/" ++ rName ++ "/"
  Event.llmCall ::
  match generateAppCode w.llmParsed with
  | .error _ => []
  | .ok files =>
    let commit := commitToGitHub w rName files req.round
    commit.2 ++
    match commit.1 with
    | .error _ => []
    | .ok sha =>
      (if req.round = 1 then [Event.enablePages rName] else []) ++
      if req.round = 1 && !w.enablePagesOk then []
      else
        (pingEvaluationAPI w.notifyOuts req.evaluation_url
          { email := req.email, task := req.task, round := req.round, nonce := req.nonce,
            repo_url := repoURL, commit_sha := some sha, pages_url := pagesURL }).2

/-- The `/api-endpoint` handler of variant B. -/
def apiEndpoint (cfg : Config) (w : World) (req : Request) : Nat × List Event :=
  if req.secret ≠ cfg.studentSecret then (401, [])
  else (200, processTask cfg w req)

end VB

namespace VC

/-- Configuration of variant C (environment variables). -/
structure Config where
  studentSecret : Option String
  githubOwner : String

/-- Outcomes of the external calls of one variant-C run.  `putResults i` is the
commit sha returned by the i-th `createOrUpdateFileContents` call, and
`getResults i` the file sha returned by the i-th `getContent` call; `.error`
models a rejected API call. -/
structure World where
  llmParsed : Except Unit JsObject
  createRepoOk : Bool
  putResults : Nat → Except Unit String
  getResults : Nat → Except Unit String
  enablePagesOk : Bool
  notifyOuts : Nat → Outcome

/-- The response processing of `generateFiles`: the parsed JSON is returned
as-is, with no validation of the required keys. -/
def generateFiles (parsed : Except Unit JsObject) : Except Unit JsObject :=
  parsed

/-- Computes `task.toLowerCase().replace(/[^a-z0-9]/g, '-')` character by character:
each character is lowercased, then replaced by a dash unless it is an ASCII
lowercase letter or digit. -/
def sanitizeTask (t : String) : String :=
  String.mk (t.data.map (fun c =>
    let lc := c.toLower
    if ('a' ≤ lc && lc ≤ 'z') || ('0' ≤ lc && lc ≤ '9') then lc else '-'))

/-- The deterministic repository name of variant C. -/
def repoNameOf (task : String) : String := "llm-deploy-" ++ sanitizeTask task

/-- The record `createAndPushRepo` returns. -/
structure PublishResult where
  repo_url : String
  commit_sha : String
  pages_url : String
deriving DecidableEq

/-- The round-1 per-file commit loop of `createAndPushRepo`: the items are
pushed in order via `createOrUpdateFileContents`, keeping the last returned
commit sha.  A `none` content means the parsed LLM object lacks that key, so
building the call body (`Buffer.from(undefined, 'utf8')`) throws before the
call is made. -/
def pushLoop (putResults : Nat → Except Unit String) (rName : String) :
    List (String × Option String) → Nat → String → Except Unit String × List Event
  | [], _, sha => (.ok sha, [])
  | (p, c) :: rest, i, _sha =>
    match c with
    | none => (.error (), [])
    | some content =>
      match putResults i with
      | .error _ => (.error (), [Event.putFile rName p content])
      | .ok newSha =>
        let r := pushLoop putResults rName rest (i + 1) newSha
        (r.1, Event.putFile rName p content :: r.2)

/-- The round-2 update loop of `createAndPushRepo`: for each item, fetch the
current file sha with `getContent`, then update the file referencing it. -/
def updateLoop (getResults putResults : Nat → Except Unit String) (rName : String) :
    List (String × Option String) → Nat → String → Except Unit String × List Event
  | [], _, sha => (.ok sha, [])
  | (p, c) :: rest, i, _sha =>
    match getResults i with
    | .error _ => (.error (), [Event.getContent rName p])
    | .ok _cur =>
      match c with
      | none => (.error (), [Event.getContent rName p])
      | some content =>
        match putResults i with
        | .error _ => (.error (), [Event.getContent rName p, Event.putFile rName p content])
        | .ok newSha =>
          let r := updateLoop getResults putResults rName rest (i + 1) newSha
          (r.1, Event.getContent rName p :: Event.putFile rName p content :: r.2)

/-- The function `createAndPushRepo`: round 1 creates the repository, pushes LICENSE,
README.md and index.html in that order, then enables pages; round 2 updates
index.html and README.md in place; any other round performs no call and
returns the initial empty `commit_sha`. -/
def createAndPushRepo (w : World) (owner rName : String) (files : JsObject) (round : Int) :
    Except Unit PublishResult × List Event :=
  let repo_url := "https://github.com/" ++ owner ++ "/" ++ rName
  let pages_url := "https://" ++ owner ++ ".github.io/" ++ rName ++ "/"
  if round = 1 then
    if !w.createRepoOk then (.error (), [Event.createRepo rName])
    else
      let items := [("LICENSE", jsGet files "license_content"),
                    ("README.md", jsGet files "readme_content"),
                    ("index.html", jsGet files "html_content")]
      let pushed := pushLoop w.putResults rName items 0 ""
      match pushed.1 with
      | .error _ => (.error (), Event.createRepo rName :: pushed.2)
      | .ok sha =>
        if w.enablePagesOk then
          (.ok ⟨repo_url, sha, pages_url⟩,
           Event.createRepo rName :: pushed.2 ++ [Event.enablePages rName])
        else (.error (), Event.createRepo rName :: pushed.2 ++ [Event.enablePages rName])
  else if round = 2 then
    let items := [("index.html", jsGet files "html_content"),
                  ("README.md", jsGet files "readme_content")]
    let upd := updateLoop w.getResults w.putResults rName items 0 ""
    match upd.1 with
    | .error _ => (.error (), upd.2)
    | .ok sha => (.ok ⟨repo_url, sha, pages_url⟩, upd.2)
  else (.ok ⟨repo_url, "", pages_url⟩, [])

def MAX_RETRIES : Nat := 5

/-- The retry loop of `sendNotification`: unlike variant A, the catch sleeps
even after the final failed attempt, then the loop exits and throws. -/
def sendGo (outs : Nat → Outcome) (url : String) (p : EvalPayload) :
    Nat → Nat → Nat → Bool × List Event
  | 0, _, _ => (false, [])
  | r + 1, i, delay =>
    if axiosOk (outs i) then (true, [Event.notify url p])
    else
      let rest := sendGo outs url p r (i + 1) (delay * 2)
      (rest.1, Event.notify url p :: Event.wait delay :: rest.2)

def sendNotification (outs : Nat → Outcome) (url : String) (p : EvalPayload) :
    Bool × List Event :=
  sendGo outs url p MAX_RETRIES 0 1000

/-- The function `processTask` of variant C: generation, the debug read of
`files.html_content.length` (which throws on a missing key), the repository
operations, then the notification; every thrown error is caught and only
logged. -/
def processTask (cfg : Config) (w : World) (req : Request) : List Event :=
  let rName := repoNameOf req.task
  Event.llmCall ::
  match generateFiles w.llmParsed with
  | .error _ => []
  | .ok files =>
    match jsGet files "html_content" with
    | none => []
    | some _ =>
      let pushed := createAndPushRepo w cfg.githubOwner rName files req.round
      pushed.2 ++
      match pushed.1 with
      | .error _ => []
      | .ok pub =>
        (sendNotification w.notifyOuts req.evaluation_url
          { email := req.email, task := req.task, round := req.round, nonce := req.nonce,
            repo_url := pub.repo_url, commit_sha := some pub.commit_sha,
            pages_url := pub.pages_url }).2

/-- The root `POST` handler of variant C. -/
def apiEndpoint (cfg : Config) (w : World) (req : Request) : Nat × List Event :=
  if req.secret ≠ cfg.studentSecret then (401, [])
  else (200, processTask cfg w req)

end VC

/-- Traces of variant A's retry loop contain no events other than posts and
waits: any predicate false on those is counted zero. -/
theorem VA.postToEvalGo_countP (outs : Nat → Outcome) (p : Event → Bool)
    (hn : ∀ u x, p (Event.notify u x) = false) (hw : ∀ d, p (Event.wait d) = false) :
    ∀ url q r i d, (VA.postToEvalGo outs url q r i d).2.countP p = 0 := by
  intro url q r
  induction r with
  | zero => intro i d; simp [VA.postToEvalGo]
  | succ n ih =>
    intro i d
    simp only [VA.postToEvalGo]
    split
    · simp [List.countP_cons, hn]
    · split
      · simp [List.countP_cons, hn]
      · simp [List.countP_cons, hn, hw, ih]

/-- When every attempt fails, variant A's loop throws and posts once per unit
of remaining fuel. -/
theorem VA.postToEvalGo_allFail (outs : Nat → Outcome)
    (h : ∀ i, axiosOk (outs i) = false) :
    ∀ url q r i d, (VA.postToEvalGo outs url q r i d).1 = false ∧
      (VA.postToEvalGo outs url q r i d).2.countP isNotify = r := by
  intro url q r
  induction r with
  | zero => intro i d; simp [VA.postToEvalGo]
  | succ n ih =>
    intro i d
    rcases Nat.eq_zero_or_pos n with hn0 | hpos
    · subst hn0
      simp [VA.postToEvalGo, h i, isNotify]
    · have hne : n ≠ 0 := Nat.pos_iff_ne_zero.mp hpos
      simp [VA.postToEvalGo, h i, hne, List.countP_cons, isNotify,
        (ih (i + 1) (d * 2)).1, (ih (i + 1) (d * 2)).2]

/-- A successful first attempt returns immediately with a single post. -/
theorem VA.postToEvalGo_first (outs : Nat → Outcome) (url : String) (q : EvalPayload)
    (r i d : Nat) (h : axiosOk (outs i) = true) :
    VA.postToEvalGo outs url q (r + 1) i d = (true, [Event.notify url q]) := by
  simp [VA.postToEvalGo, h]

/-- The loop always makes at least one post when it has fuel. -/
theorem VA.postToEvalGo_notify_pos (outs : Nat → Outcome) (url : String) (q : EvalPayload)
    (r i d : Nat) : 1 ≤ (VA.postToEvalGo outs url q (r + 1) i d).2.countP isNotify := by
  simp only [VA.postToEvalGo]
  split
  · simp [isNotify]
  · split
    · simp [isNotify]
    · simp [List.countP_cons, isNotify]

/-- Traces of variant C's retry loop contain only posts and waits. -/
theorem VC.sendGo_countP (outs : Nat → Outcome) (p : Event → Bool)
    (hn : ∀ u x, p (Event.notify u x) = false) (hw : ∀ d, p (Event.wait d) = false) :
    ∀ url q r i d, (VC.sendGo outs url q r i d).2.countP p = 0 := by
  intro url q r
  induction r with
  | zero => intro i d; simp [VC.sendGo]
  | succ n ih =>
    intro i d
    simp only [VC.sendGo]
    split
    · simp [List.countP_cons, hn]
    · simp [List.countP_cons, hn, hw, ih]

/-- When every attempt fails, variant C's loop throws after posting once per
unit of fuel, waiting after every failed attempt including the last. -/
theorem VC.sendGo_allFail (outs : Nat → Outcome)
    (h : ∀ i, axiosOk (outs i) = false) :
    ∀ url q r i d, (VC.sendGo outs url q r i d).1 = false ∧
      (VC.sendGo outs url q r i d).2.countP isNotify = r := by
  intro url q r
  induction r with
  | zero => intro i d; simp [VC.sendGo]
  | succ n ih =>
    intro i d
    simp [VC.sendGo, h i, List.countP_cons, isNotify,
      (ih (i + 1) (d * 2)).1, (ih (i + 1) (d * 2)).2]

/-- A successful first attempt returns immediately with a single post. -/
theorem VC.sendGo_first (outs : Nat → Outcome) (url : String) (q : EvalPayload)
    (r i d : Nat) (h : axiosOk (outs i) = true) :
    VC.sendGo outs url q (r + 1) i d = (true, [Event.notify url q]) := by
  simp [VC.sendGo, h]

/-- Traces of variant B's retry loop contain only posts and waits. -/
theorem VB.pingGo_countP (outs : Nat → Outcome) (p : Event → Bool)
    (hn : ∀ u x, p (Event.notify u x) = false) (hw : ∀ d, p (Event.wait d) = false) :
    ∀ url q ds i, (VB.pingGo outs url q ds i).2.countP p = 0 := by
  intro url q ds
  induction ds with
  | nil => intro i; simp [VB.pingGo]
  | cons d rest ih =>
    intro i
    cases ho : outs i with
    | response s =>
      by_cases h2 : is2xx s = true
      · by_cases h200 : s = 200
        · simp [VB.pingGo, ho, h2, h200, is2xx, List.countP_cons, hn]
        · simp [VB.pingGo, ho, h2, h200, List.countP_cons, hn, ih]
      · simp [VB.pingGo, ho, h2, List.countP_cons, hn, hw, ih]
    | transportError => simp [VB.pingGo, ho, List.countP_cons, hn, hw, ih]

/-- When no attempt returns status 200, variant B's loop throws after posting
once per remaining delay entry. -/
theorem VB.pingGo_noSuccess (outs : Nat → Outcome)
    (h : ∀ i, outs i ≠ Outcome.response 200) :
    ∀ url q ds i, (VB.pingGo outs url q ds i).1 = false ∧
      (VB.pingGo outs url q ds i).2.countP isNotify = ds.length := by
  intro url q ds
  induction ds with
  | nil => intro i; simp [VB.pingGo]
  | cons d rest ih =>
    intro i
    cases ho : outs i with
    | response s =>
      have hs : s ≠ 200 := by
        intro he; exact h i (by rw [ho, he])
      by_cases h2 : is2xx s = true
      · simp [VB.pingGo, ho, h2, hs, List.countP_cons, isNotify,
          (ih (i + 1)).1, (ih (i + 1)).2]
      · simp [VB.pingGo, ho, h2, List.countP_cons, isNotify,
          (ih (i + 1)).1, (ih (i + 1)).2]
    | transportError =>
      simp [VB.pingGo, ho, List.countP_cons, isNotify,
        (ih (i + 1)).1, (ih (i + 1)).2]

/-- A first attempt answering exactly 200 returns immediately with one post. -/
theorem VB.pingGo_first (outs : Nat → Outcome) (url : String) (q : EvalPayload)
    (d : Nat) (ds : List Nat) (i : Nat) (h : outs i = Outcome.response 200) :
    VB.pingGo outs url q (d :: ds) i = (true, [Event.notify url q]) := by
  simp [VB.pingGo, h, is2xx]

/-- Any predicate false on every event constructor a variant-A trace can
contain (there is no hosting-API creation, page-enablement, or content-API
call in variant A) is counted zero on every run. -/
theorem VA.backgroundTask_countP_zero (cfg : VA.Config) (w : VA.World) (req : Request)
    (p : Event → Bool)
    (hllm : p Event.llmCall = false)
    (hclone : ∀ n, p (Event.gitClone n) = false)
    (hpush : ∀ n, p (Event.gitPush n) = false)
    (hmk : ∀ d, p (Event.mkTempDir d) = false)
    (hwrite : ∀ d f c, p (Event.writeLocal d f c) = false)
    (hrm : ∀ d, p (Event.rmTempDir d) = false)
    (hn : ∀ u x, p (Event.notify u x) = false)
    (hw : ∀ d, p (Event.wait d) = false) :
    (VA.backgroundTask cfg w req).countP p = 0 := by
  have hpe := VA.postToEvalGo_countP w.notifyOuts p hn hw
  by_cases h1 : req.round = 1
  · rcases hl : w.llm with e | resp
    · simp [VA.backgroundTask, h1, hl, hllm]
    · by_cases hp : w.pushOk
      <;> simp [VA.backgroundTask, VA.postToEvaluation, h1, hl, hp, hllm, hclone, hpush,
            hmk, hwrite, hrm, List.countP_cons, List.countP_append, hpe]
  · by_cases h2 : req.round = 2
    · by_cases hc : w.cloneOk
      · rcases hl : w.llm with e | resp
        · simp [VA.backgroundTask, h1, h2, hc, hl, hllm, hclone]
        · by_cases hp : w.pushOk
          <;> simp [VA.backgroundTask, VA.postToEvaluation, h1, h2, hc, hl, hp, hllm,
                hclone, hpush, hwrite, hrm, List.countP_cons, List.countP_append, hpe]
      · simp [VA.backgroundTask, h1, h2, hc, hclone]
    · simp [VA.backgroundTask, VA.postToEvaluation, h1, h2, hpe]

/-- Staged writes contribute nothing to a count whose predicate is false on
local writes. -/
theorem countP_writes_zero (p : Event → Bool)
    (hwrite : ∀ d f c, p (Event.writeLocal d f c) = false)
    (files : JsObject) (td : String) :
    (files.map (fun f => Event.writeLocal td f.1 f.2)).countP p = 0 := by
  rw [List.countP_map]
  refine List.countP_eq_zero.mpr ?_
  intro a _
  simp [Function.comp, hwrite]

/-- In a round-2 run of variant B no repository-creation and no page-enable
call occurs: any predicate false on the event constructors such a run can
produce is counted zero. -/
theorem VB.processTask_round2_countP_zero (cfg : VB.Config) (w : VB.World) (req : Request)
    (p : Event → Bool) (h2 : req.round = 2)
    (hllm : p Event.llmCall = false)
    (hmk : ∀ d, p (Event.mkTempDir d) = false)
    (hwrite : ∀ d f c, p (Event.writeLocal d f c) = false)
    (hpush : ∀ n, p (Event.gitPush n) = false)
    (hrm : ∀ d, p (Event.rmTempDir d) = false)
    (hn : ∀ u x, p (Event.notify u x) = false)
    (hw : ∀ d, p (Event.wait d) = false) :
    (VB.processTask cfg w req).countP p = 0 := by
  have hpe := VB.pingGo_countP w.notifyOuts p hn hw
  have hwz := countP_writes_zero p hwrite
  rcases hg : VB.generateAppCode w.llmParsed with e | files
  · simp [VB.processTask, hg, hllm]
  · by_cases hp : w.pushOk
    <;> simp [VB.processTask, VB.commitToGitHub, VB.pingEvaluationAPI, hg, h2, hp,
          hllm, hmk, hpush, hrm, List.countP_cons, List.countP_append, hwz, hpe]

/-- On a successful round-1 run, variant B creates the repository exactly once
and enables pages exactly once (the enable call itself is made whether or not
it then succeeds). -/
theorem VB.processTask_round1_counts (cfg : VB.Config) (w : VB.World) (req : Request)
    (files : JsObject) (h1 : req.round = 1)
    (hgen : VB.generateAppCode w.llmParsed = .ok files)
    (hcr : w.createRepoOk = true) (hpk : w.pushOk = true) :
    (VB.processTask cfg w req).countP isCreateRepo = 1 ∧
    (VB.processTask cfg w req).countP isEnablePages = 1 := by
  have hpe1 := VB.pingGo_countP w.notifyOuts isCreateRepo (by intro u x; rfl) (by intro d; rfl)
  have hpe2 := VB.pingGo_countP w.notifyOuts isEnablePages (by intro u x; rfl) (by intro d; rfl)
  have hwz1 := countP_writes_zero isCreateRepo (by intro d f c; rfl)
  have hwz2 := countP_writes_zero isEnablePages (by intro d f c; rfl)
  by_cases he : w.enablePagesOk
  <;> simp [VB.processTask, VB.commitToGitHub, VB.pingEvaluationAPI, hgen, h1, hcr, hpk,
        he, isCreateRepo, isEnablePages, List.countP_cons, List.countP_append,
        hwz1, hwz2, hpe1, hpe2]

/-- Every variant-B trace removes the staging directory exactly as often as it
creates it: the removal lives in a `finally` around the commit step, and the
round-1 creation failure happens before the directory exists. -/
theorem VB.processTask_mk_eq_rm (cfg : VB.Config) (w : VB.World) (req : Request) :
    (VB.processTask cfg w req).countP isMkTempDir =
      (VB.processTask cfg w req).countP isRmTempDir := by
  have hpe1 := VB.pingGo_countP w.notifyOuts isMkTempDir (by intro u x; rfl) (by intro d; rfl)
  have hpe2 := VB.pingGo_countP w.notifyOuts isRmTempDir (by intro u x; rfl) (by intro d; rfl)
  have hwz1 := countP_writes_zero isMkTempDir (by intro d f c; rfl)
  have hwz2 := countP_writes_zero isRmTempDir (by intro d f c; rfl)
  rcases hg : VB.generateAppCode w.llmParsed with e | files
  · simp [VB.processTask, hg, isMkTempDir, isRmTempDir]
  · by_cases h1 : req.round = 1
    · by_cases hcr : w.createRepoOk
      · by_cases hp : w.pushOk
        <;> by_cases he : w.enablePagesOk
        <;> simp [VB.processTask, VB.commitToGitHub, VB.pingEvaluationAPI, hg, h1, hcr,
              hp, he, isMkTempDir, isRmTempDir, List.countP_cons, List.countP_append,
              hwz1, hwz2, hpe1, hpe2]
      · simp [VB.processTask, VB.commitToGitHub, hg, h1, hcr, isMkTempDir, isRmTempDir,
          List.countP_cons]
    · by_cases hp : w.pushOk
      <;> simp [VB.processTask, VB.commitToGitHub, VB.pingEvaluationAPI, hg, h1, hp,
            isMkTempDir, isRmTempDir, List.countP_cons, List.countP_append,
            hwz1, hwz2, hpe1, hpe2]

/-- In a round-2 run of variant B with successful generation, the commit
stages a regenerated LICENSE file: the round-1 LICENSE is rewritten. -/
theorem VB.processTask_round2_license (cfg : VB.Config) (w : VB.World) (req : Request)
    (files : JsObject) (lc : String) (h2 : req.round = 2)
    (hgen : VB.generateAppCode w.llmParsed = .ok files)
    (hmem : ("LICENSE", lc) ∈ files) :
    1 ≤ (VB.processTask cfg w req).countP (touches "LICENSE") := by
  have hpos : 0 < List.countP
      (touches "LICENSE" ∘ fun f =>
        Event.writeLocal ("/tmp/llm_task_temp/" ++ VB.repoName req.task 2) f.1 f.2) files :=
    List.countP_pos_iff.mpr ⟨("LICENSE", lc), hmem, by simp [touches]⟩
  by_cases hp : w.pushOk
  <;> simp [VB.processTask, VB.commitToGitHub, hgen, h2, hp, List.countP_cons,
        List.countP_append]
  <;> omega

/-- Every event of the round-1 push loop is a content-API file write whose
path is one of the items. -/
theorem VC.pushLoop_mem (pr : Nat → Except Unit String) (rName : String) :
    ∀ (items : List (String × Option String)) (i : Nat) (sha : String) (e : Event),
      e ∈ (VC.pushLoop pr rName items i sha).2 →
      ∃ it ∈ items, ∃ c, e = Event.putFile rName it.1 c := by
  intro items
  induction items with
  | nil => intro i sha e he; simp [VC.pushLoop] at he
  | cons hd rest ih =>
    intro i sha e he
    rcases hd with ⟨pth, c⟩
    rcases c with _ | content
    · simp [VC.pushLoop] at he
    · rcases hpr : pr i with u | newSha
      · simp [VC.pushLoop, hpr] at he
        exact ⟨(pth, some content), by simp, content, he⟩
      · simp [VC.pushLoop, hpr] at he
        rcases he with he | he
        · exact ⟨(pth, some content), by simp, content, he⟩
        · rcases ih (i + 1) newSha e he with ⟨it, hit, c2, hc⟩
          exact ⟨it, List.mem_cons_of_mem _ hit, c2, hc⟩

/-- Every event of the round-2 update loop is a content-API read or write
whose path is one of the items. -/
theorem VC.updateLoop_mem (gr pr : Nat → Except Unit String) (rName : String) :
    ∀ (items : List (String × Option String)) (i : Nat) (sha : String) (e : Event),
      e ∈ (VC.updateLoop gr pr rName items i sha).2 →
      ∃ it ∈ items, (e = Event.getContent rName it.1 ∨ ∃ c, e = Event.putFile rName it.1 c) := by
  intro items
  induction items with
  | nil => intro i sha e he; simp [VC.updateLoop] at he
  | cons hd rest ih =>
    intro i sha e he
    rcases hd with ⟨pth, c⟩
    rcases hgr : gr i with u | cur
    · simp [VC.updateLoop, hgr] at he
      exact ⟨(pth, c), by simp, Or.inl he⟩
    · rcases c with _ | content
      · simp [VC.updateLoop, hgr] at he
        exact ⟨(pth, none), by simp, Or.inl he⟩
      · rcases hpr : pr i with u | newSha
        · simp [VC.updateLoop, hgr, hpr] at he
          rcases he with he | he
          · exact ⟨(pth, some content), by simp, Or.inl he⟩
          · exact ⟨(pth, some content), by simp, Or.inr ⟨content, he⟩⟩
        · simp [VC.updateLoop, hgr, hpr] at he
          rcases he with he | he | he
          · exact ⟨(pth, some content), by simp, Or.inl he⟩
          · exact ⟨(pth, some content), by simp, Or.inr ⟨content, he⟩⟩
          · rcases ih (i + 1) newSha e he with ⟨it, hit, hc⟩
            exact ⟨it, List.mem_cons_of_mem _ hit, hc⟩

/-- In a round-2 run of variant C no repository-creation, page-enable, or
staging-directory event occurs, and no file other than index.html and
README.md is touched: any predicate false on the reads/writes of those two
paths and on the other constructors such a run can produce is counted zero. -/
theorem VC.processTask_round2_zero (cfg : VC.Config) (w : VC.World) (req : Request)
    (p : Event → Bool) (h2 : req.round = 2)
    (hllm : p Event.llmCall = false)
    (hget : ∀ r q, p (Event.getContent r q) = false)
    (hput : ∀ r q c, (q = "index.html" ∨ q = "README.md") → p (Event.putFile r q c) = false)
    (hn : ∀ u x, p (Event.notify u x) = false)
    (hw : ∀ d, p (Event.wait d) = false) :
    (VC.processTask cfg w req).countP p = 0 := by
  have hpe := VC.sendGo_countP w.notifyOuts p hn hw
  rcases hl : w.llmParsed with e | files
  · simp [VC.processTask, VC.generateFiles, hl, hllm]
  · rcases hh : jsGet files "html_content" with _ | html
    · simp [VC.processTask, VC.generateFiles, hl, hh, hllm]
    · have hcz : ∀ (i : Nat) (sha : String),
          (VC.updateLoop w.getResults w.putResults (VC.repoNameOf req.task)
            [("index.html", some html), ("README.md", jsGet files "readme_content")]
            i sha).2.countP p = 0 := by
        intro i sha
        refine List.countP_eq_zero.mpr ?_
        intro e he
        rcases VC.updateLoop_mem w.getResults w.putResults (VC.repoNameOf req.task)
          _ i sha e he with ⟨it, hit, hc⟩
        have hpath : it.1 = "index.html" ∨ it.1 = "README.md" := by
          simp only [List.mem_cons, List.not_mem_nil, or_false] at hit
          rcases hit with h | h <;> simp [h]
        rcases hc with hc | ⟨c2, hc⟩
        · simp [hc, hget]
        · simp [hc, hput _ _ _ hpath]
      rcases hu : (VC.updateLoop w.getResults w.putResults (VC.repoNameOf req.task)
        [("index.html", some html), ("README.md", jsGet files "readme_content")] 0 "").1
        with u | sha
      · simp [VC.processTask, VC.generateFiles, VC.createAndPushRepo, hl, hh, h2, hu,
          hllm, List.countP_cons, List.countP_append, hcz]
      · simp [VC.processTask, VC.generateFiles, VC.createAndPushRepo, VC.sendNotification,
          hl, hh, h2, hu, hllm, List.countP_cons, List.countP_append, hcz]
        intro a ha
        simpa using List.countP_eq_zero.mp (hpe _ _ _ _ _) a ha

/-- On a successful round-1 run, variant C creates the repository exactly once
and makes exactly one page-enable call. -/
theorem VC.processTask_round1_create_enable (cfg : VC.Config) (w : VC.World) (req : Request)
    (files : JsObject) (lct rct hct s0 s1 s2 : String) (h1 : req.round = 1)
    (hl : w.llmParsed = .ok files)
    (hL : jsGet files "license_content" = some lct)
    (hR : jsGet files "readme_content" = some rct)
    (hH : jsGet files "html_content" = some hct)
    (hp0 : w.putResults 0 = .ok s0) (hp1 : w.putResults 1 = .ok s1)
    (hp2 : w.putResults 2 = .ok s2) (hcr : w.createRepoOk = true) :
    (VC.processTask cfg w req).countP isCreateRepo = 1 ∧
    (VC.processTask cfg w req).countP isEnablePages = 1 := by
  have hpe1 := VC.sendGo_countP w.notifyOuts isCreateRepo (fun u x => rfl) (fun d => rfl)
  have hpe2 := VC.sendGo_countP w.notifyOuts isEnablePages (fun u x => rfl) (fun d => rfl)
  by_cases he : w.enablePagesOk
  <;> simp [VC.processTask, VC.generateFiles, VC.createAndPushRepo, VC.pushLoop,
        VC.sendNotification, hl, hL, hR, hH, hp0, hp1, hp2, hcr, h1, he,
        isCreateRepo, isEnablePages, List.countP_cons, List.countP_append, hpe1, hpe2]

/-- A successful round-1 run of variant A stages one temp directory and
removes it. -/
theorem VA.backgroundTask_round1_cleanup (cfg : VA.Config) (w : VA.World) (req : Request)
    (resp : VA.GeminiResponse) (h1 : req.round = 1) (hl : w.llm = .ok resp)
    (hp : w.pushOk = true) :
    (VA.backgroundTask cfg w req).countP isMkTempDir = 1 ∧
    (VA.backgroundTask cfg w req).countP isRmTempDir = 1 := by
  have hpe1 := VA.postToEvalGo_countP w.notifyOuts isMkTempDir (fun u x => rfl) (fun d => rfl)
  have hpe2 := VA.postToEvalGo_countP w.notifyOuts isRmTempDir (fun u x => rfl) (fun d => rfl)
  simp [VA.backgroundTask, VA.postToEvaluation, h1, hl, hp, isMkTempDir, isRmTempDir,
    List.countP_cons, List.countP_append, hpe1, hpe2]

/-- A round-1 run of variant A whose push fails stages the temp directory and
never removes it: the cleanup is only on the success path. -/
theorem VA.backgroundTask_round1_leak (cfg : VA.Config) (w : VA.World) (req : Request)
    (resp : VA.GeminiResponse) (h1 : req.round = 1) (hl : w.llm = .ok resp)
    (hp : w.pushOk = false) :
    (VA.backgroundTask cfg w req).countP isMkTempDir = 1 ∧
    (VA.backgroundTask cfg w req).countP isRmTempDir = 0 := by
  simp [VA.backgroundTask, h1, hl, hp, isMkTempDir, isRmTempDir, List.countP_cons]

/-- A failed generation aborts variant B before any further call. -/
theorem VB.processTask_genFail (cfg : VB.Config) (w : VB.World) (req : Request)
    (hg : VB.generateAppCode w.llmParsed = .error ()) :
    VB.processTask cfg w req = [Event.llmCall] := by
  simp [VB.processTask, hg]

/-- Variant B rejects a parsed response whose required files are missing or
empty. -/
theorem VB.generateAppCode_missing (parsed : JsObject)
    (h : jsFalsy (jsGet parsed "index.html") = true ∨
         jsFalsy (jsGet parsed "README.md") = true ∨
         jsFalsy (jsGet parsed "LICENSE") = true) :
    VB.generateAppCode (.ok parsed) = .error () := by
  rcases h with h | h | h <;> simp [VB.generateAppCode, h]

/-- Variant C with a parsed response that lacks the license key but has the
html key still creates the round-1 repository, then fails before notifying. -/
theorem VC.processTask_missing_license (cfg : VC.Config) (w : VC.World) (req : Request)
    (files : JsObject) (hct : String) (h1 : req.round = 1)
    (hl : w.llmParsed = .ok files) (hH : jsGet files "html_content" = some hct)
    (hL : jsGet files "license_content" = none) (hcr : w.createRepoOk = true) :
    (VC.processTask cfg w req).countP isCreateRepo = 1 ∧
    (VC.processTask cfg w req).countP isNotify = 0 := by
  simp [VC.processTask, VC.generateFiles, VC.createAndPushRepo, VC.pushLoop, hl, hH, hL,
    h1, hcr, isCreateRepo, isNotify, List.countP_cons]

/-- In a round-2 run of variant A the only staged writes are index.html,
script.js and README.md: any predicate false on those writes and on the other
constructors such a run can produce is counted zero. -/
theorem VA.backgroundTask_round2_countP_zero (cfg : VA.Config) (w : VA.World) (req : Request)
    (p : Event → Bool) (h2 : req.round = 2)
    (hllm : p Event.llmCall = false)
    (hclone : ∀ n, p (Event.gitClone n) = false)
    (hpush : ∀ n, p (Event.gitPush n) = false)
    (hwrite : ∀ d f c, (f = "index.html" ∨ f = "script.js" ∨ f = "README.md") →
      p (Event.writeLocal d f c) = false)
    (hrm : ∀ d, p (Event.rmTempDir d) = false)
    (hn : ∀ u x, p (Event.notify u x) = false)
    (hw : ∀ d, p (Event.wait d) = false) :
    (VA.backgroundTask cfg w req).countP p = 0 := by
  have hpe := VA.postToEvalGo_countP w.notifyOuts p hn hw
  have h1 : ¬ req.round = 1 := by simp [h2]
  have hwi : ∀ d c, p (Event.writeLocal d "index.html" c) = false :=
    fun d c => hwrite d _ c (Or.inl rfl)
  have hws : ∀ d c, p (Event.writeLocal d "script.js" c) = false :=
    fun d c => hwrite d _ c (Or.inr (Or.inl rfl))
  have hwr : ∀ d c, p (Event.writeLocal d "README.md" c) = false :=
    fun d c => hwrite d _ c (Or.inr (Or.inr rfl))
  by_cases hc : w.cloneOk
  · rcases hl : w.llm with e | resp
    · simp [VA.backgroundTask, h1, h2, hc, hl, hllm, hclone]
    · by_cases hp : w.pushOk
      <;> simp [VA.backgroundTask, VA.postToEvaluation, h1, h2, hc, hl, hp, hllm,
            hclone, hpush, hwi, hws, hwr, hrm, List.countP_cons, List.countP_append, hpe]
  · simp [VA.backgroundTask, h1, h2, hc, hclone]

/-- Any predicate false on the hosting-API calls of variant C is counted zero
on the trace of `createAndPushRepo`, at every round. -/
theorem VC.createAndPushRepo_countP_zero (w : VC.World) (owner rName : String)
    (files : JsObject) (round : Int) (p : Event → Bool)
    (hcre : ∀ n, p (Event.createRepo n) = false)
    (hen : ∀ n, p (Event.enablePages n) = false)
    (hget : ∀ r q, p (Event.getContent r q) = false)
    (hput : ∀ r q c, p (Event.putFile r q c) = false) :
    (VC.createAndPushRepo w owner rName files round).2.countP p = 0 := by
  have hplz : ∀ items i sha, (VC.pushLoop w.putResults rName items i sha).2.countP p = 0 := by
    intro items i sha
    refine List.countP_eq_zero.mpr ?_
    intro e he
    rcases VC.pushLoop_mem w.putResults rName items i sha e he with ⟨it, _, c, hc⟩
    simp [hc, hput]
  have hulz : ∀ items i sha,
      (VC.updateLoop w.getResults w.putResults rName items i sha).2.countP p = 0 := by
    intro items i sha
    refine List.countP_eq_zero.mpr ?_
    intro e he
    rcases VC.updateLoop_mem w.getResults w.putResults rName items i sha e he with ⟨it, _, hc⟩
    rcases hc with hc | ⟨c, hc⟩
    · simp [hc, hget]
    · simp [hc, hput]
  by_cases r1 : round = 1
  · by_cases hcr : w.createRepoOk
    · rcases hpl : (VC.pushLoop w.putResults rName
        [("LICENSE", jsGet files "license_content"),
         ("README.md", jsGet files "readme_content"),
         ("index.html", jsGet files "html_content")] 0 "").1 with u | sha
      <;> by_cases he2 : w.enablePagesOk
      <;> simp [VC.createAndPushRepo, r1, hcr, hpl, he2, List.countP_cons,
            List.countP_append, hcre, hen, hplz]
    · simp [VC.createAndPushRepo, r1, hcr, List.countP_cons, hcre]
  · by_cases r2 : round = 2
    · rcases hu : (VC.updateLoop w.getResults w.putResults rName
        [("index.html", jsGet files "html_content"),
         ("README.md", jsGet files "readme_content")] 0 "").1 with u | sha
      <;> simp [VC.createAndPushRepo, r1, r2, hu, hulz]
    · simp [VC.createAndPushRepo, r1, r2]

/-- No run of variant C stages a temporary directory or makes any git call:
any predicate false on the constructors variant C can produce is counted zero
on every round. -/
theorem VC.processTask_countP_zero (cfg : VC.Config) (w : VC.World) (req : Request)
    (p : Event → Bool)
    (hllm : p Event.llmCall = false)
    (hcre : ∀ n, p (Event.createRepo n) = false)
    (hen : ∀ n, p (Event.enablePages n) = false)
    (hget : ∀ r q, p (Event.getContent r q) = false)
    (hput : ∀ r q c, p (Event.putFile r q c) = false)
    (hn : ∀ u x, p (Event.notify u x) = false)
    (hw : ∀ d, p (Event.wait d) = false) :
    (VC.processTask cfg w req).countP p = 0 := by
  have hpe := VC.sendGo_countP w.notifyOuts p hn hw
  have hcz := VC.createAndPushRepo_countP_zero w cfg.githubOwner (VC.repoNameOf req.task)
  rcases hl : w.llmParsed with e | files
  · simp [VC.processTask, VC.generateFiles, hl, hllm]
  · rcases hh : jsGet files "html_content" with _ | html
    · simp [VC.processTask, VC.generateFiles, hl, hh, hllm]
    · rcases hres : (VC.createAndPushRepo w cfg.githubOwner (VC.repoNameOf req.task) files
        req.round).1 with u | pub
      · simp [VC.processTask, VC.generateFiles, hl, hh, hres, hllm,
          List.countP_cons, List.countP_append, hcz files req.round p hcre hen hget hput]
      · simp [VC.processTask, VC.generateFiles, VC.sendNotification, hl, hh, hres, hllm,
          List.countP_cons, List.countP_append, hcz files req.round p hcre hen hget hput]
        intro a ha
        simpa using List.countP_eq_zero.mp (hpe _ _ _ _ _) a ha

/-! Concrete fixtures used by the counterexamples and witnesses. -/

/-- A collaborator that accepts the first attempt. -/
def okOuts : Nat → Outcome := fun _ => Outcome.response 200

/-- A collaborator that fails transport on every attempt. -/
def allFailOuts : Nat → Outcome := fun _ => Outcome.transportError

/-- A collaborator that fails the first four attempts and answers 200 on the
fifth. -/
def fail4ok5 : Nat → Outcome := fun i => if i < 4 then Outcome.transportError else Outcome.response 200

/-- A collaborator that always answers 204 No Content (2xx-class, not 200). -/
def all204 : Nat → Outcome := fun _ => Outcome.response 204

def demoReq : Request :=
  { email := "student@example.com", secret := some "s3cret", task := "demo-task",
    round := 1, nonce := "n-1", brief := "a single-page counter app", checks := ["works"],
    attachments := [], evaluation_url := "https://eval.example.com/notify" }

def round2Req : Request := { demoReq with round := 2 }

def round3Req : Request := { demoReq with round := 3 }

def badSecretReq : Request := { demoReq with secret := some "wrong" }

def noSecretReq : Request := { demoReq with secret := none }

def demoCfgA : VA.Config :=
  { studentSecret := some "s3cret", githubUsername := "Octocat", githubPat := "PAT" }

def noSecretCfgA : VA.Config := { demoCfgA with studentSecret := none }

def demoCfgB : VB.Config :=
  { studentSecret := some "s3cret", githubUsername := "Octocat", githubPat := "PAT" }

def noSecretCfgB : VB.Config := { demoCfgB with studentSecret := none }

def demoCfgC : VC.Config := { studentSecret := some "s3cret", githubOwner := "Octocat" }

def noSecretCfgC : VC.Config := { demoCfgC with studentSecret := none }

def demoResp : VA.GeminiResponse :=
  { htmlBlock := some "<html>app</html>", jsBlock := some "let n = 0", markdownBlock := some "# App" }

def demoWorldA : VA.World :=
  { llm := .ok demoResp, tempSuffix := "ab12cd34", cloneOk := true, pushOk := true,
    headSha := "sha-a1", notifyOuts := okOuts }

def pushFailWorldA : VA.World := { demoWorldA with pushOk := false }

/-- A parsed LLM object holding all three required files. -/
def fullParsed : JsObject :=
  [("index.html", "<html>v1</html>"), ("README.md", "# v1"), ("LICENSE", "MIT text")]

def demoWorldB : VB.World :=
  { llmParsed := .ok fullParsed, createRepoOk := true, pushOk := true,
    headSha := "sha-b1", enablePagesOk := true, notifyOuts := okOuts }

/-- A parsed LLM object missing the index.html key. -/
def missingIndexParsed : JsObject := [("README.md", "# r"), ("LICENSE", "MIT text")]

def missingIndexWorldB : VB.World := { demoWorldB with llmParsed := .ok missingIndexParsed }

/-- A parsed LLM object in variant C key style with all three keys. -/
def parsedC : JsObject :=
  [("html_content", "<html>app</html>"), ("readme_content", "# README"),
   ("license_content", "MIT text")]

/-- A parsed LLM object in variant C key style missing the license key. -/
def missingLicenseParsed : JsObject :=
  [("html_content", "<html>app</html>"), ("readme_content", "# README")]

def demoWorldC : VC.World :=
  { llmParsed := .ok parsedC, createRepoOk := true,
    putResults := fun _ => .ok "sha-c", getResults := fun _ => .ok "cur-sha",
    enablePagesOk := true, notifyOuts := okOuts }

def missingLicenseWorldC : VC.World := { demoWorldC with llmParsed := .ok missingLicenseParsed }

def demoPayload : EvalPayload :=
  { email := "e", task := "demo-task", round := 1, nonce := "n", repo_url := "r",
    commit_sha := some "sha-a1", pages_url := "p" }

/-- C1: for a fixed task the second variant derives the repository name from
the round as well (`${task}-${round}`): round 1 names it demo-task-1 while
round 2 names demo-task-2, so a round-2 run does not target the repository
round 1 created; the first and third variants derive round-independent names.
This confirms the divergence the claim is about, at the failing input. -/
theorem C1_repo_name_round_dependent :
    VB.repoName "demo-task" 1 = "demo-task-1" ∧
    VB.repoName "demo-task" 2 = "demo-task-2" ∧
    VB.repoName "demo-task" 1 ≠ VB.repoName "demo-task" 2 ∧
    VA.repoNameOf "demo-task" = "llm-project-demo-task" ∧
    VC.repoNameOf "demo-task" = "llm-deploy-demo-task" := by
  refine ⟨?_, ?_, ?_, ?_, ?_⟩ <;> decide

/-- C2 counterexample: a fully successful round-1 run of the first variant
performs zero repository-creation calls and zero page-enable calls against
the hosting API (it only pushes over git and leaves pages enablement to
pre-configuration), refuting "exactly one of each" for round 1. -/
theorem C2_counterexample :
    ¬ ((VA.backgroundTask demoCfgA demoWorldA demoReq).countP isCreateRepo = 1 ∧
       (VA.backgroundTask demoCfgA demoWorldA demoReq).countP isEnablePages = 1) := by
  decide

/-- C2 (amended): in the two Octokit variants a successful round-1 run makes
exactly one repository-creation call and exactly one page-enable call, and
every round-2 run makes zero of each; the simple-git variant makes zero
hosting-API creation and page-enable calls on every run. -/
theorem C2_amended :
    (∀ (cfg : VA.Config) (w : VA.World) (req : Request),
      (VA.backgroundTask cfg w req).countP isCreateRepo = 0 ∧
      (VA.backgroundTask cfg w req).countP isEnablePages = 0) ∧
    (∀ (cfg : VB.Config) (w : VB.World) (req : Request) (files : JsObject),
      req.round = 1 → VB.generateAppCode w.llmParsed = .ok files →
      w.createRepoOk = true → w.pushOk = true →
      (VB.processTask cfg w req).countP isCreateRepo = 1 ∧
      (VB.processTask cfg w req).countP isEnablePages = 1) ∧
    (∀ (cfg : VB.Config) (w : VB.World) (req : Request), req.round = 2 →
      (VB.processTask cfg w req).countP isCreateRepo = 0 ∧
      (VB.processTask cfg w req).countP isEnablePages = 0) ∧
    (∀ (cfg : VC.Config) (w : VC.World) (req : Request) (files : JsObject)
        (lct rct hct s0 s1 s2 : String), req.round = 1 →
      w.llmParsed = .ok files →
      jsGet files "license_content" = some lct →
      jsGet files "readme_content" = some rct →
      jsGet files "html_content" = some hct →
      w.putResults 0 = .ok s0 → w.putResults 1 = .ok s1 → w.putResults 2 = .ok s2 →
      w.createRepoOk = true →
      (VC.processTask cfg w req).countP isCreateRepo = 1 ∧
      (VC.processTask cfg w req).countP isEnablePages = 1) ∧
    (∀ (cfg : VC.Config) (w : VC.World) (req : Request), req.round = 2 →
      (VC.processTask cfg w req).countP isCreateRepo = 0 ∧
      (VC.processTask cfg w req).countP isEnablePages = 0) := by
  refine ⟨?_, ?_, ?_, ?_, ?_⟩
  · intro cfg w req
    exact ⟨VA.backgroundTask_countP_zero cfg w req isCreateRepo rfl (fun _ => rfl)
        (fun _ => rfl) (fun _ => rfl) (fun _ _ _ => rfl) (fun _ => rfl)
        (fun _ _ => rfl) (fun _ => rfl),
      VA.backgroundTask_countP_zero cfg w req isEnablePages rfl (fun _ => rfl)
        (fun _ => rfl) (fun _ => rfl) (fun _ _ _ => rfl) (fun _ => rfl)
        (fun _ _ => rfl) (fun _ => rfl)⟩
  · intro cfg w req files h1 hg hcr hpk
    exact VB.processTask_round1_counts cfg w req files h1 hg hcr hpk
  · intro cfg w req h2
    exact ⟨VB.processTask_round2_countP_zero cfg w req isCreateRepo h2 rfl (fun _ => rfl)
        (fun _ _ _ => rfl) (fun _ => rfl) (fun _ => rfl) (fun _ _ => rfl) (fun _ => rfl),
      VB.processTask_round2_countP_zero cfg w req isEnablePages h2 rfl (fun _ => rfl)
        (fun _ _ _ => rfl) (fun _ => rfl) (fun _ => rfl) (fun _ _ => rfl) (fun _ => rfl)⟩
  · intro cfg w req files lct rct hct s0 s1 s2 h1 hl hL hR hH hp0 hp1 hp2 hcr
    exact VC.processTask_round1_create_enable cfg w req files lct rct hct s0 s1 s2 h1 hl
      hL hR hH hp0 hp1 hp2 hcr
  · intro cfg w req h2
    exact ⟨VC.processTask_round2_zero cfg w req isCreateRepo h2 rfl (fun _ _ => rfl)
        (fun _ _ _ _ => rfl) (fun _ _ => rfl) (fun _ => rfl),
      VC.processTask_round2_zero cfg w req isEnablePages h2 rfl (fun _ _ => rfl)
        (fun _ _ _ _ => rfl) (fun _ _ => rfl) (fun _ => rfl)⟩

/-- C2 witness: the amended statement evaluated on concrete successful runs of
each variant and round. -/
theorem C2_amended_witness :
    ((VA.backgroundTask demoCfgA demoWorldA demoReq).countP isCreateRepo = 0 ∧
     (VA.backgroundTask demoCfgA demoWorldA demoReq).countP isEnablePages = 0) ∧
    ((VB.processTask demoCfgB demoWorldB demoReq).countP isCreateRepo = 1 ∧
     (VB.processTask demoCfgB demoWorldB demoReq).countP isEnablePages = 1) ∧
    ((VB.processTask demoCfgB demoWorldB round2Req).countP isCreateRepo = 0 ∧
     (VB.processTask demoCfgB demoWorldB round2Req).countP isEnablePages = 0) ∧
    ((VC.processTask demoCfgC demoWorldC demoReq).countP isCreateRepo = 1 ∧
     (VC.processTask demoCfgC demoWorldC demoReq).countP isEnablePages = 1) ∧
    ((VC.processTask demoCfgC demoWorldC round2Req).countP isCreateRepo = 0 ∧
     (VC.processTask demoCfgC demoWorldC round2Req).countP isEnablePages = 0) :=
  ⟨C2_amended.1 demoCfgA demoWorldA demoReq,
   C2_amended.2.1 demoCfgB demoWorldB demoReq fullParsed rfl rfl rfl rfl,
   C2_amended.2.2.1 demoCfgB demoWorldB round2Req rfl,
   C2_amended.2.2.2.1 demoCfgC demoWorldC demoReq parsedC "MIT text" "# README"
     "<html>app</html>" "sha-c" "sha-c" "sha-c" rfl rfl (by decide) (by decide) (by decide)
     rfl rfl rfl rfl,
   C2_amended.2.2.2.2 demoCfgC demoWorldC round2Req rfl⟩

/-- C3 counterexample: in the second variant a 204 response is 2xx-class yet
does not count as success: a collaborator that always answers 204 makes the
Notifier run through all six attempts and still throw, and it performs no
backoff wait at all between those failed attempts. -/
theorem C3_counterexample :
    is2xx 204 = true ∧
    (VB.pingEvaluationAPI all204 "u" demoPayload).1 = false ∧
    (VB.pingEvaluationAPI all204 "u" demoPayload).2.countP isNotify = 6 ∧
    waitTotal (VB.pingEvaluationAPI all204 "u" demoPayload).2 = 0 := by
  decide

/-- C3 (amended): in the first and third variants an attempt succeeds exactly
on a 2xx-class status and any failure triggers the doubling backoff wait; in
the second variant an attempt succeeds only on status exactly 200.  In all
three, a collaborator failing the first four attempts and succeeding on the
fifth gets its success on attempt five, after 1+2+4+8 = 15 s of waiting,
within the maximum attempt count. -/
theorem C3_amended :
    (∀ (s : Nat) (u : String) (q : EvalPayload), is2xx s = true →
      VA.postToEvaluation (fun _ => Outcome.response s) u q = (true, [Event.notify u q])) ∧
    (∀ (s : Nat) (u : String) (q : EvalPayload), is2xx s = true →
      VC.sendNotification (fun _ => Outcome.response s) u q = (true, [Event.notify u q])) ∧
    (∀ (outs : Nat → Outcome) (u : String) (q : EvalPayload),
      (∀ i, axiosOk (outs i) = false) → (VA.postToEvaluation outs u q).1 = false) ∧
    (∀ (outs : Nat → Outcome) (u : String) (q : EvalPayload),
      (∀ i, axiosOk (outs i) = false) → (VC.sendNotification outs u q).1 = false) ∧
    (∀ (u : String) (q : EvalPayload),
      VB.pingEvaluationAPI (fun _ => Outcome.response 200) u q = (true, [Event.notify u q])) ∧
    (∀ (s : Nat) (u : String) (q : EvalPayload), s ≠ 200 →
      (VB.pingEvaluationAPI (fun _ => Outcome.response s) u q).1 = false) ∧
    ((VA.postToEvaluation fail4ok5 "u" demoPayload).1 = true ∧
     (VA.postToEvaluation fail4ok5 "u" demoPayload).2.countP isNotify = 5 ∧
     waitTotal (VA.postToEvaluation fail4ok5 "u" demoPayload).2 = 15000 ∧
     (VC.sendNotification fail4ok5 "u" demoPayload).1 = true ∧
     (VC.sendNotification fail4ok5 "u" demoPayload).2.countP isNotify = 5 ∧
     waitTotal (VC.sendNotification fail4ok5 "u" demoPayload).2 = 15000 ∧
     (VB.pingEvaluationAPI fail4ok5 "u" demoPayload).1 = true ∧
     (VB.pingEvaluationAPI fail4ok5 "u" demoPayload).2.countP isNotify = 5 ∧
     waitTotal (VB.pingEvaluationAPI fail4ok5 "u" demoPayload).2 = 15000 ∧
     5 ≤ VA.maxRetries ∧ 5 ≤ VC.MAX_RETRIES ∧ 5 ≤ VB.delayTimes.length) := by
  refine ⟨?_, ?_, ?_, ?_, ?_, ?_, ?_⟩
  · intro s u q hs
    exact VA.postToEvalGo_first (fun _ => Outcome.response s) u q 4 0 1000
      (by simpa [axiosOk] using hs)
  · intro s u q hs
    exact VC.sendGo_first (fun _ => Outcome.response s) u q 4 0 1000
      (by simpa [axiosOk] using hs)
  · intro outs u q h
    exact (VA.postToEvalGo_allFail outs h u q VA.maxRetries 0 1000).1
  · intro outs u q h
    exact (VC.sendGo_allFail outs h u q VC.MAX_RETRIES 0 1000).1
  · intro u q
    exact VB.pingGo_first (fun _ => Outcome.response 200) u q 1000
      [2000, 4000, 8000, 16000, 32000] 0 rfl
  · intro s u q hs
    exact (VB.pingGo_noSuccess (fun _ => Outcome.response s)
      (fun i h' => hs (Outcome.response.inj h')) u q VB.delayTimes 0).1
  · refine ⟨?_, ?_, ?_, ?_, ?_, ?_, ?_, ?_, ?_, ?_, ?_, ?_⟩ <;> decide

/-- C3 witness: the amended statement applied at a 204-answering collaborator
(2xx success in variants one and three, failure in variant two at 503) and an
always-failing transport. -/
theorem C3_amended_witness :
    VA.postToEvaluation (fun _ => Outcome.response 204) "u" demoPayload
      = (true, [Event.notify "u" demoPayload]) ∧
    VC.sendNotification (fun _ => Outcome.response 201) "u" demoPayload
      = (true, [Event.notify "u" demoPayload]) ∧
    (VB.pingEvaluationAPI (fun _ => Outcome.response 503) "u" demoPayload).1 = false ∧
    (VA.postToEvaluation allFailOuts "u" demoPayload).1 = false :=
  ⟨C3_amended.1 204 "u" demoPayload (by decide),
   C3_amended.2.1 201 "u" demoPayload (by decide),
   C3_amended.2.2.2.2.2.1 503 "u" demoPayload (by decide),
   C3_amended.2.2.1 allFailOuts "u" demoPayload (fun i => rfl)⟩

/-- C4: against a collaborator whose every attempt fails, each Notifier makes
exactly its maximum number of posts (5, 5 and 6 respectively), then throws
(`false` marks the thrown error), and its trace contains no hosting or git
call at all, so the already-committed Publisher effects are untouched. -/
theorem C4_notifier_exhaustion :
    ∀ (outs : Nat → Outcome) (u : String) (q : EvalPayload),
      (∀ i, axiosOk (outs i) = false) →
      ((VA.postToEvaluation outs u q).1 = false ∧
       (VA.postToEvaluation outs u q).2.countP isNotify = VA.maxRetries ∧
       (VA.postToEvaluation outs u q).2.countP isHostCall = 0) ∧
      ((VC.sendNotification outs u q).1 = false ∧
       (VC.sendNotification outs u q).2.countP isNotify = VC.MAX_RETRIES ∧
       (VC.sendNotification outs u q).2.countP isHostCall = 0) ∧
      ((VB.pingEvaluationAPI outs u q).1 = false ∧
       (VB.pingEvaluationAPI outs u q).2.countP isNotify = VB.delayTimes.length ∧
       (VB.pingEvaluationAPI outs u q).2.countP isHostCall = 0) := by
  intro outs u q h
  have hb : ∀ i, outs i ≠ Outcome.response 200 := by
    intro i he
    have hx := h i
    rw [he] at hx
    simp [axiosOk, is2xx] at hx
  refine ⟨⟨?_, ?_, ?_⟩, ⟨?_, ?_, ?_⟩, ⟨?_, ?_, ?_⟩⟩
  · exact (VA.postToEvalGo_allFail outs h u q VA.maxRetries 0 1000).1
  · exact (VA.postToEvalGo_allFail outs h u q VA.maxRetries 0 1000).2
  · exact VA.postToEvalGo_countP outs isHostCall (fun _ _ => rfl) (fun _ => rfl)
      u q VA.maxRetries 0 1000
  · exact (VC.sendGo_allFail outs h u q VC.MAX_RETRIES 0 1000).1
  · exact (VC.sendGo_allFail outs h u q VC.MAX_RETRIES 0 1000).2
  · exact VC.sendGo_countP outs isHostCall (fun _ _ => rfl) (fun _ => rfl)
      u q VC.MAX_RETRIES 0 1000
  · exact (VB.pingGo_noSuccess outs hb u q VB.delayTimes 0).1
  · exact (VB.pingGo_noSuccess outs hb u q VB.delayTimes 0).2
  · exact VB.pingGo_countP outs isHostCall (fun _ _ => rfl) (fun _ => rfl)
      u q VB.delayTimes 0

/-- C4 witness: the exhaustion theorem applied at an always-failing transport
collaborator. -/
theorem C4_witness :
    (VA.postToEvaluation allFailOuts "u" demoPayload).1 = false ∧
    (VC.sendNotification allFailOuts "u" demoPayload).2.countP isNotify = 5 ∧
    (VB.pingEvaluationAPI allFailOuts "u" demoPayload).2.countP isNotify = 6 ∧
    (VB.pingEvaluationAPI allFailOuts "u" demoPayload).2.countP isHostCall = 0 := by
  have hx := C4_notifier_exhaustion allFailOuts "u" demoPayload (fun i => rfl)
  exact ⟨hx.1.1, hx.2.1.2.1, by simpa [VB.delayTimes] using hx.2.2.2.1, hx.2.2.2.2⟩

/-- C5 counterexample: the third variant performs no required-key validation
on the parsed JSON: with the license key missing (but html present) the run
does not fail fast in the Generator — it goes on to invoke the Publisher and
creates the round-1 repository before failing. -/
theorem C5_counterexample :
    VC.generateFiles (Except.ok missingLicenseParsed) = Except.ok missingLicenseParsed ∧
    jsGet missingLicenseParsed "license_content" = none ∧
    (VC.processTask demoCfgC missingLicenseWorldC demoReq).countP isCreateRepo = 1 := by
  refine ⟨rfl, by decide, by decide⟩

/-- C5 (amended): only the second variant validates the required files and
fails fast with no Publisher call; the third variant returns the parsed JSON
unvalidated, so a response missing the license key still reaches the
Publisher and creates the round-1 repository (and never notifies); the first
variant substitutes a visible placeholder for a missing block instead of
failing. -/
theorem C5_amended :
    (∀ (cfg : VB.Config) (w : VB.World) (req : Request) (parsed : JsObject),
      w.llmParsed = .ok parsed →
      (jsFalsy (jsGet parsed "index.html") = true ∨
       jsFalsy (jsGet parsed "README.md") = true ∨
       jsFalsy (jsGet parsed "LICENSE") = true) →
      VB.processTask cfg w req = [Event.llmCall]) ∧
    (∀ parsed : JsObject, VC.generateFiles (.ok parsed) = .ok parsed) ∧
    (∀ (cfg : VC.Config) (w : VC.World) (req : Request) (files : JsObject) (hct : String),
      req.round = 1 → w.llmParsed = .ok files →
      jsGet files "html_content" = some hct →
      jsGet files "license_content" = none → w.createRepoOk = true →
      (VC.processTask cfg w req).countP isCreateRepo = 1 ∧
      (VC.processTask cfg w req).countP isNotify = 0) ∧
    (∀ label : String, VA.extract label none =
      "// Error: Could not extract " ++ label ++ " code.") := by
  refine ⟨?_, ?_, ?_, ?_⟩
  · intro cfg w req parsed hl hm
    apply VB.processTask_genFail
    rw [hl]
    exact VB.generateAppCode_missing parsed hm
  · intro parsed; rfl
  · intro cfg w req files hct h1 hl hH hL hcr
    exact VC.processTask_missing_license cfg w req files hct h1 hl hH hL hcr
  · intro label; rfl

/-- C5 witness: the amended statement applied at a response missing index.html
(variant two fails fast) and at one missing the license key (variant three
creates the repository yet never notifies). -/
theorem C5_amended_witness :
    VB.processTask demoCfgB missingIndexWorldB demoReq = [Event.llmCall] ∧
    (VC.processTask demoCfgC missingLicenseWorldC demoReq).countP isNotify = 0 :=
  ⟨C5_amended.1 demoCfgB missingIndexWorldB demoReq missingIndexParsed rfl
     (Or.inl (by decide)),
   (C5_amended.2.2.1 demoCfgC missingLicenseWorldC demoReq missingLicenseParsed
     "<html>app</html>" rfl rfl (by decide) (by decide) rfl).2⟩

/-- C6: on a secret mismatch each variant answers its authentication-failure
status (403 for the first variant, 401 for the others) with an empty trace:
no model call, no hosting call, no notification. -/
theorem C6_secret_gate :
    ∀ (ca : VA.Config) (cb : VB.Config) (cc : VC.Config)
      (wa : VA.World) (wb : VB.World) (wc : VC.World) (req : Request),
      (req.secret ≠ ca.studentSecret → VA.apiEndpoint ca wa req = (403, [])) ∧
      (req.secret ≠ cb.studentSecret → VB.apiEndpoint cb wb req = (401, [])) ∧
      (req.secret ≠ cc.studentSecret → VC.apiEndpoint cc wc req = (401, [])) := by
  intro ca cb cc wa wb wc req
  refine ⟨fun h => ?_, fun h => ?_, fun h => ?_⟩
  · simp [VA.apiEndpoint, h]
  · simp [VB.apiEndpoint, h]
  · simp [VC.apiEndpoint, h]

/-- C6 witness: a wrong secret against each configured variant. -/
theorem C6_witness :
    VA.apiEndpoint demoCfgA demoWorldA badSecretReq = (403, []) ∧
    VB.apiEndpoint demoCfgB demoWorldB badSecretReq = (401, []) ∧
    VC.apiEndpoint demoCfgC demoWorldC badSecretReq = (401, []) :=
  ⟨(C6_secret_gate demoCfgA demoCfgB demoCfgC demoWorldA demoWorldB demoWorldC
      badSecretReq).1 (by decide),
   (C6_secret_gate demoCfgA demoCfgB demoCfgC demoWorldA demoWorldB demoWorldC
      badSecretReq).2.1 (by decide),
   (C6_secret_gate demoCfgA demoCfgB demoCfgC demoWorldA demoWorldB demoWorldC
      badSecretReq).2.2 (by decide)⟩

/-- C7 counterexample: in the second variant a successful round-2 run stages
and commits a regenerated LICENSE file (every generated file is written), so
the LICENSE from round 1 is not left untouched by the round-2 commit. -/
theorem C7_counterexample :
    1 ≤ (VB.processTask demoCfgB demoWorldB round2Req).countP (touches "LICENSE") := by
  decide

/-- C7 (amended): in the first variant a round-2 run rewrites only index.html,
script.js and README.md, and in the third variant only index.html and
README.md are read and updated — in both, LICENSE is untouched; in the second
variant the round-2 commit rewrites every generated file, LICENSE included. -/
theorem C7_amended :
    (∀ (cfg : VA.Config) (w : VA.World) (req : Request), req.round = 2 →
      (VA.backgroundTask cfg w req).countP (touches "LICENSE") = 0) ∧
    (∀ (cfg : VC.Config) (w : VC.World) (req : Request), req.round = 2 →
      (VC.processTask cfg w req).countP (touches "LICENSE") = 0 ∧
      (VC.processTask cfg w req).countP
        (fun e => isPutFile e && !(touches "index.html" e || touches "README.md" e)) = 0) ∧
    (∀ (cfg : VB.Config) (w : VB.World) (req : Request) (files : JsObject) (lc : String),
      req.round = 2 → VB.generateAppCode w.llmParsed = .ok files →
      ("LICENSE", lc) ∈ files →
      1 ≤ (VB.processTask cfg w req).countP (touches "LICENSE")) := by
  refine ⟨?_, ?_, ?_⟩
  · intro cfg w req h2
    refine VA.backgroundTask_round2_countP_zero cfg w req (touches "LICENSE") h2 rfl
      (fun _ => rfl) (fun _ => rfl) ?_ (fun _ => rfl) (fun _ _ => rfl) (fun _ => rfl)
    intro d f c hf
    rcases hf with hf | hf | hf <;> simp [touches, hf]
  · intro cfg w req h2
    constructor
    · refine VC.processTask_round2_zero cfg w req (touches "LICENSE") h2 rfl
        (fun _ _ => rfl) ?_ (fun _ _ => rfl) (fun _ => rfl)
      intro r q c hq
      rcases hq with hq | hq <;> simp [touches, hq]
    · refine VC.processTask_round2_zero cfg w req _ h2 rfl
        (fun _ _ => rfl) ?_ (fun _ _ => rfl) (fun _ => rfl)
      intro r q c hq
      rcases hq with hq | hq <;> simp [touches, isPutFile, hq]
  · intro cfg w req files lc h2 hg hmem
    exact VB.processTask_round2_license cfg w req files lc h2 hg hmem

/-- C7 witness: the amended statement on concrete round-2 runs. -/
theorem C7_amended_witness :
    (VA.backgroundTask demoCfgA demoWorldA round2Req).countP (touches "LICENSE") = 0 ∧
    (VC.processTask demoCfgC demoWorldC round2Req).countP (touches "LICENSE") = 0 ∧
    1 ≤ (VB.processTask demoCfgB demoWorldB round2Req).countP (touches "LICENSE") :=
  ⟨C7_amended.1 demoCfgA demoWorldA round2Req rfl,
   (C7_amended.2.1 demoCfgC demoWorldC round2Req rfl).1,
   C7_amended.2.2 demoCfgB demoWorldB round2Req fullParsed "MIT text" rfl rfl (by decide)⟩

/-- C8 counterexample: in the first variant a round-1 run whose git push fails
leaves the staged temporary directory in place — the run creates it, the
failure jumps to the catch (which only logs), and the removal on the success
path is never reached. -/
theorem C8_counterexample :
    (VA.backgroundTask demoCfgA pushFailWorldA demoReq).countP isMkTempDir = 1 ∧
    (VA.backgroundTask demoCfgA pushFailWorldA demoReq).countP isRmTempDir = 0 := by
  decide

/-- C8 (amended): the second variant removes its staging directory exactly as
often as it creates it (the removal is in a `finally`), and the third variant
never stages one; but the first variant removes its directory only on the
success path — with a failing push, the round-1 directory is created and
never removed. -/
theorem C8_amended :
    (∀ (cfg : VA.Config) (w : VA.World) (req : Request) (resp : VA.GeminiResponse),
      req.round = 1 → w.llm = .ok resp → w.pushOk = true →
      (VA.backgroundTask cfg w req).countP isMkTempDir = 1 ∧
      (VA.backgroundTask cfg w req).countP isRmTempDir = 1) ∧
    (∀ (cfg : VA.Config) (w : VA.World) (req : Request) (resp : VA.GeminiResponse),
      req.round = 1 → w.llm = .ok resp → w.pushOk = false →
      (VA.backgroundTask cfg w req).countP isMkTempDir = 1 ∧
      (VA.backgroundTask cfg w req).countP isRmTempDir = 0) ∧
    (∀ (cfg : VB.Config) (w : VB.World) (req : Request),
      (VB.processTask cfg w req).countP isMkTempDir =
        (VB.processTask cfg w req).countP isRmTempDir) ∧
    (∀ (cfg : VC.Config) (w : VC.World) (req : Request),
      (VC.processTask cfg w req).countP isMkTempDir = 0) := by
  refine ⟨?_, ?_, ?_, ?_⟩
  · intro cfg w req resp h1 hl hp
    exact VA.backgroundTask_round1_cleanup cfg w req resp h1 hl hp
  · intro cfg w req resp h1 hl hp
    exact VA.backgroundTask_round1_leak cfg w req resp h1 hl hp
  · intro cfg w req
    exact VB.processTask_mk_eq_rm cfg w req
  · intro cfg w req
    exact VC.processTask_countP_zero cfg w req isMkTempDir rfl (fun _ => rfl)
      (fun _ => rfl) (fun _ _ => rfl) (fun _ _ _ => rfl) (fun _ _ => rfl) (fun _ => rfl)

/-- C8 witness: the amended statement on concrete runs — a clean round-1 run
of the first variant, its push-failure twin, and successful runs of the other
variants. -/
theorem C8_amended_witness :
    ((VA.backgroundTask demoCfgA demoWorldA demoReq).countP isMkTempDir = 1 ∧
     (VA.backgroundTask demoCfgA demoWorldA demoReq).countP isRmTempDir = 1) ∧
    (VA.backgroundTask demoCfgA pushFailWorldA demoReq).countP isRmTempDir = 0 ∧
    (VB.processTask demoCfgB demoWorldB demoReq).countP isMkTempDir =
      (VB.processTask demoCfgB demoWorldB demoReq).countP isRmTempDir ∧
    (VC.processTask demoCfgC demoWorldC demoReq).countP isMkTempDir = 0 :=
  ⟨C8_amended.1 demoCfgA demoWorldA demoReq demoResp rfl rfl rfl,
   (C8_amended.2.1 demoCfgA pushFailWorldA demoReq demoResp rfl rfl rfl).2,
   C8_amended.2.2.1 demoCfgB demoWorldB demoReq,
   C8_amended.2.2.2 demoCfgC demoWorldC demoReq⟩

/-- C9: an authenticated request whose round is neither 1 nor 2 skips both
round branches of the first variant — no model call, no hosting or git call —
yet still posts the notification, whose payload carries `commit_sha`
undefined (`none`) while `repo_url` and `pages_url` are the deterministically
derived values for the task. -/
theorem C9_unknown_round :
    ∀ (cfg : VA.Config) (w : VA.World) (req : Request),
      req.secret = cfg.studentSecret → req.round ≠ 1 → req.round ≠ 2 →
      VA.apiEndpoint cfg w req =
        (200, (VA.postToEvaluation w.notifyOuts req.evaluation_url
          { email := req.email, task := req.task, round := req.round, nonce := req.nonce,
            repo_url := "https://github.com/" ++ cfg.githubUsername ++ "/" ++
              VA.repoNameOf req.task,
            commit_sha := none,
            pages_url := "https://" ++ cfg.githubUsername.toLower ++ ".github.io/" ++
              VA.repoNameOf req.task ++ "/" }).2) ∧
      (VA.apiEndpoint cfg w req).2.countP isLlmCall = 0 ∧
      (VA.apiEndpoint cfg w req).2.countP isHostCall = 0 ∧
      1 ≤ (VA.apiEndpoint cfg w req).2.countP isNotify := by
  intro cfg w req hs h1 h2
  refine ⟨?_, ?_, ?_, ?_⟩
  · simp [VA.apiEndpoint, hs, VA.backgroundTask, h1, h2]
  · simp [VA.apiEndpoint, hs, VA.backgroundTask, VA.postToEvaluation, h1, h2,
      VA.postToEvalGo_countP w.notifyOuts isLlmCall (fun _ _ => rfl) (fun _ => rfl)]
  · simp [VA.apiEndpoint, hs, VA.backgroundTask, VA.postToEvaluation, h1, h2,
      VA.postToEvalGo_countP w.notifyOuts isHostCall (fun _ _ => rfl) (fun _ => rfl)]
  · simp only [VA.apiEndpoint, hs]
    rw [if_neg (by simp)]
    simp only [VA.backgroundTask, h1, h2, if_false]
    exact VA.postToEvalGo_notify_pos w.notifyOuts req.evaluation_url _ 4 0 1000

/-- C9 witness: a round-3 request against the first variant. -/
theorem C9_witness :
    (VA.apiEndpoint demoCfgA demoWorldA round3Req).2.countP isLlmCall = 0 ∧
    (VA.apiEndpoint demoCfgA demoWorldA round3Req).2.countP isHostCall = 0 ∧
    1 ≤ (VA.apiEndpoint demoCfgA demoWorldA round3Req).2.countP isNotify :=
  ⟨(C9_unknown_round demoCfgA demoWorldA round3Req rfl (by decide) (by decide)).2.1,
   (C9_unknown_round demoCfgA demoWorldA round3Req rfl (by decide) (by decide)).2.2.1,
   (C9_unknown_round demoCfgA demoWorldA round3Req rfl (by decide) (by decide)).2.2.2⟩

/-- C10: with the secret environment variable unset, a request that omits the
secret field passes the strict-inequality gate (undefined is not unequal to
undefined) and is accepted and processed; each variant takes its
authentication-failure branch exactly when the two values differ. -/
theorem C10_unset_secret :
    ∀ (ca : VA.Config) (cb : VB.Config) (cc : VC.Config)
      (wa : VA.World) (wb : VB.World) (wc : VC.World) (req : Request),
      (ca.studentSecret = none → req.secret = none →
        VA.apiEndpoint ca wa req = (200, VA.backgroundTask ca wa req)) ∧
      ((VA.apiEndpoint ca wa req).1 = 403 ↔ req.secret ≠ ca.studentSecret) ∧
      (cb.studentSecret = none → req.secret = none →
        VB.apiEndpoint cb wb req = (200, VB.processTask cb wb req)) ∧
      ((VB.apiEndpoint cb wb req).1 = 401 ↔ req.secret ≠ cb.studentSecret) ∧
      (cc.studentSecret = none → req.secret = none →
        VC.apiEndpoint cc wc req = (200, VC.processTask cc wc req)) ∧
      ((VC.apiEndpoint cc wc req).1 = 401 ↔ req.secret ≠ cc.studentSecret) := by
  intro ca cb cc wa wb wc req
  refine ⟨fun h1 h2 => ?_, ?_, fun h1 h2 => ?_, ?_, fun h1 h2 => ?_, ?_⟩
  · simp [VA.apiEndpoint, h1, h2]
  · by_cases h : req.secret ≠ ca.studentSecret <;> simp [VA.apiEndpoint, h]
  · simp [VB.apiEndpoint, h1, h2]
  · by_cases h : req.secret ≠ cb.studentSecret <;> simp [VB.apiEndpoint, h]
  · simp [VC.apiEndpoint, h1, h2]
  · by_cases h : req.secret ≠ cc.studentSecret <;> simp [VC.apiEndpoint, h]

/-- C10 witness: unset secret and omitted field on each variant. -/
theorem C10_witness :
    VA.apiEndpoint noSecretCfgA demoWorldA noSecretReq
      = (200, VA.backgroundTask noSecretCfgA demoWorldA noSecretReq) ∧
    VB.apiEndpoint noSecretCfgB demoWorldB noSecretReq
      = (200, VB.processTask noSecretCfgB demoWorldB noSecretReq) ∧
    VC.apiEndpoint noSecretCfgC demoWorldC noSecretReq
      = (200, VC.processTask noSecretCfgC demoWorldC noSecretReq) :=
  ⟨(C10_unset_secret noSecretCfgA noSecretCfgB noSecretCfgC demoWorldA demoWorldB
      demoWorldC noSecretReq).1 rfl rfl,
   (C10_unset_secret noSecretCfgA noSecretCfgB noSecretCfgC demoWorldA demoWorldB
      demoWorldC noSecretReq).2.2.1 rfl rfl,
   (C10_unset_secret noSecretCfgA noSecretCfgB noSecretCfgC demoWorldA demoWorldB
      demoWorldC noSecretReq).2.2.2.2.1 rfl rfl⟩
